import Mathlib

/-!
# Verification of the Recipes-API authentication subsystem

A shallow embedding of the authentication and session-refresh core of the
Recipes-API repository (`handlers` package: `SignInHandler`, `SignUpHandler`,
`RefreshHandler`, `GetUserHandler`, `AuthMiddleware`), together with theorems
settling the specification's claims about it.

Conventions of the embedding:

* Machine words are `Nat` reduced modulo `2 ^ 32` (resp. `2 ^ 64`) where the
  source uses fixed-width arithmetic; byte strings are `List Nat` with entries
  below 256.
* Timestamps are `Int` unix seconds; `time.Now()` becomes an explicit `now`
  parameter, `time.Duration` comparisons are at second granularity.
* The Mongo collection of user records becomes an explicit `List User` passed
  in and out of the handlers; `FindOne` is `List.find?` on the filter fields,
  and a `FindOne` result whose `Err()` is `mongo.ErrNoDocuments` corresponds to
  `none`.
* Each `c.JSON(status, body)` call becomes a value of the sum type `HResp`.
-/

/-! ## SHA-256

Executable SHA-256 (FIPS 180-4), the digest algorithm of Go's `crypto/sha256`
used by the source.  Words are `Nat` taken modulo `2 ^ 32`.
-/

def w32 (x : Nat) : Nat := x % 4294967296

def add32 (a b : Nat) : Nat := w32 (a + b)

def rotr32 (n x : Nat) : Nat := w32 ((x >>> n) ||| (x <<< (32 - n)))

def bigSigma0 (x : Nat) : Nat := rotr32 2 x ^^^ rotr32 13 x ^^^ rotr32 22 x

def bigSigma1 (x : Nat) : Nat := rotr32 6 x ^^^ rotr32 11 x ^^^ rotr32 25 x

def smallSigma0 (x : Nat) : Nat := rotr32 7 x ^^^ rotr32 18 x ^^^ (x >>> 3)

def smallSigma1 (x : Nat) : Nat := rotr32 17 x ^^^ rotr32 19 x ^^^ (x >>> 10)

def chFn (x y z : Nat) : Nat := (x &&& y) ^^^ ((x ^^^ 4294967295) &&& z)

def majFn (x y z : Nat) : Nat := (x &&& y) ^^^ (x &&& z) ^^^ (y &&& z)

/-- The 64 round constants of SHA-256, written in decimal. -/
def sha256K : List Nat :=
  [1116352408, 1899447441, 3049323471, 3921009573, 961987163, 1508970993,
   2453635748, 2870763221, 3624381080, 310598401, 607225278, 1426881987,
   1925078388, 2162078206, 2614888103, 3248222580, 3835390401, 4022224774,
   264347078, 604807628, 770255983, 1249150122, 1555081692, 1996064986,
   2554220882, 2821834349, 2952996808, 3210313671, 3336571891, 3584528711,
   113926993, 338241895, 666307205, 773529912, 1294757372, 1396182291,
   1695183700, 1986661051, 2177026350, 2456956037, 2730485921, 2820302411,
   3259730800, 3345764771, 3516065817, 3600352804, 4094571909, 275423344,
   430227734, 506948616, 659060556, 883997877, 958139571, 1322822218,
   1537002063, 1747873779, 1955562222, 2024104815, 2227730452, 2361852424,
   2428436474, 2756734187, 3204031479, 3329325298]

/-- The initial hash state of SHA-256, written in decimal. -/
def sha256H0 : List Nat :=
  [1779033703, 3144134277, 1013904242, 2773480762,
   1359893119, 2600822924, 528734635, 1541459225]

/-- Group a byte list into big-endian 32-bit words (four bytes per word). -/
def bytesToWords : List Nat → List Nat
  | b0 :: b1 :: b2 :: b3 :: rest =>
      (((b0 * 256 + b1) * 256 + b2) * 256 + b3) :: bytesToWords rest
  | _ => []

/-- Big-endian bytes of one 32-bit word. -/
def wordToBytes (w : Nat) : List Nat :=
  [(w >>> 24) &&& 255, (w >>> 16) &&& 255, (w >>> 8) &&& 255, w &&& 255]

def wordsToBytes (ws : List Nat) : List Nat := ws.flatMap wordToBytes

/-- SHA-256 padding: `0x80`, zeros, then the 64-bit big-endian bit length. -/
def sha256Pad (msg : List Nat) : List Nat :=
  let len := msg.length
  let bitLen := (len * 8) % 18446744073709551616
  let zeros := (119 - len % 64) % 64
  msg ++ 0x80 :: List.replicate zeros 0 ++
    [(bitLen >>> 56) &&& 255, (bitLen >>> 48) &&& 255, (bitLen >>> 40) &&& 255,
     (bitLen >>> 32) &&& 255, (bitLen >>> 24) &&& 255, (bitLen >>> 16) &&& 255,
     (bitLen >>> 8) &&& 255, bitLen &&& 255]

/-- One step of the message-schedule extension; `rws` is the schedule so far,
most recent word first. -/
def scheduleStep (rws : List Nat) : Nat :=
  w32 (smallSigma1 (rws.getD 1 0) + rws.getD 6 0 + smallSigma0 (rws.getD 14 0) + rws.getD 15 0)

def buildSchedule : Nat → List Nat → List Nat
  | 0, rws => rws.reverse
  | n + 1, rws => buildSchedule n (scheduleStep rws :: rws)

/-- The 64-word message schedule of one 16-word block. -/
def schedule (block : List Nat) : List Nat := buildSchedule 48 block.reverse

/-- One round of the compression function on the state `[a,b,c,d,e,f,g,h]`. -/
def compressStep (st : List Nat) (kw : Nat × Nat) : List Nat :=
  match st with
  | [a, b, c, d, e, f, g, h] =>
      let t1 := w32 (h + bigSigma1 e + chFn e f g + kw.1 + kw.2)
      let t2 := w32 (bigSigma0 a + majFn a b c)
      [w32 (t1 + t2), a, b, c, w32 (d + t1), e, f, g]
  | st => st

def compressBlock (h : List Nat) (block : List Nat) : List Nat :=
  List.zipWith add32 h ((sha256K.zip (schedule block)).foldl compressStep h)

/-- Split padded bytes into 16-word blocks; `fuel` bounds the recursion and is
instantiated with the (positive) byte count. -/
def chunkBlocks : Nat → List Nat → List (List Nat)
  | 0, _ => []
  | _, [] => []
  | fuel + 1, bs => bytesToWords (bs.take 64) :: chunkBlocks fuel (bs.drop 64)

/-- SHA-256 of a byte string, as a 32-byte string. -/
def sha256 (msg : List Nat) : List Nat :=
  let padded := sha256Pad msg
  wordsToBytes ((chunkBlocks padded.length padded).foldl compressBlock sha256H0)

/-- Known-answer test: SHA-256 of the empty message
(`e3b0c44298fc1c149afbf4c8996fb92427ae41e4649b934ca495991b7852b855`). -/
theorem sha256_empty_kat :
    sha256 [] =
      [227, 176, 196, 66, 152, 252, 28, 20, 154, 251, 244, 200,
       153, 111, 185, 36, 39, 174, 65, 228, 100, 155, 147, 76,
       164, 149, 153, 27, 120, 82, 184, 85] := by decide

/-- Known-answer test: SHA-256 of the three bytes `"abc"`
(`ba7816bf8f01cfea414140de5dae2223b00361a396177a9cb410ff61f20015ad`). -/
theorem sha256_abc_kat :
    sha256 [97, 98, 99] =
      [186, 120, 22, 191, 143, 1, 207, 234, 65, 65, 64, 222,
       93, 174, 34, 35, 176, 3, 97, 163, 150, 23, 122, 156,
       180, 16, 255, 97, 242, 0, 21, 173] := by decide

/-! ## Data model -/

/-- Modelled from the spec: the `models.User` record (the `models` package is
not under `src/`; spec §3 gives `UserRecord = {username, password}` with the
password field holding the stored digest, and spec §4.2/§6 state that the
record, password field included, is what response bodies carry).  The password
field is a Go byte string, embedded as `List Nat`. -/
structure User where
  username : String
  password : List Nat
deriving DecidableEq

/-- The token claim set (`Claims` struct of the source): a username plus the
`ExpiresAt` unix timestamp of `jwt.StandardClaims`. -/
structure Claims where
  username : String
  expiresAt : Int
deriving DecidableEq

/-- Modelled from the spec: the Token Codec (spec §4.1).  The jwt library is a
dependency, not under `src/`; per the spec, a token is an opaque signed string
over a claim set, so a token value is either a claim set signed under some key
or a malformed string. -/
inductive Token where
  | signed (claims : Claims) (key : String)
  | malformed (raw : String)
deriving DecidableEq

inductive ParseError where
  | invalidSignature
  | malformedToken
deriving DecidableEq

/-- Modelled from the spec: `Parse` of the Token Codec (spec §4.1) verifies
signature integrity and structural validity against the process secret; expiry
is NOT checked by this operation (parsing succeeds even if `expiresAt` is in
the past).  `Parse` takes no clock at all. -/
def parseToken (secret : String) (t : Token) : Except ParseError Claims :=
  match t with
  | .signed c k => if k = secret then .ok c else .error .invalidSignature
  | .malformed _ => .error .malformedToken

/-- The key value handed to `token.SignedString`: the source passes
`[]byte(os.Getenv("JWT_SECRET"))` in `SignInHandler` (line 76) but the plain
string `os.Getenv("JWT_SECRET")` in `RefreshHandler` (line 143), and the two
are not interchangeable for the signer. -/
inductive SigningKey where
  | bytesKey (secret : String)
  | stringKey (secret : String)
deriving DecidableEq

/-- `token.SignedString(key)`, the signing step of `Issue` (spec §4.1): the
jwt library's HMAC signing method accepts only a byte-slice key and rejects
every other key type — in particular a plain `string` — with
`ErrInvalidKeyType` ("key is of invalid type"); with a byte-slice key it
serializes and signs the claims with that secret. -/
def signedString (key : SigningKey) (c : Claims) : Except String Token :=
  match key with
  | .bytesKey secret => .ok (.signed c secret)
  | .stringKey _ => .error "key is of invalid type"

/-- The message of the error value a failed parse returns (`err.Error()` in the
source); the exact text is the jwt library's and is not relied on. -/
def parseErrorMessage : ParseError → String
  | .invalidSignature => "signature is invalid"
  | .malformedToken => "token contains an invalid number of segments"

/-- `JWTOutput` of the source: the response body of sign-in and refresh. -/
structure JWTOutput where
  token : Token
  expires : Int
deriving DecidableEq

/-- A handler response: one `c.JSON(status, body)` call.  `ok` is
`c.JSON(200, body)`; `err s m` is `c.JSON(s, gin.H\x7b"error": m\x7d)`. -/
inductive HResp (α : Type) where
  | ok (body : α)
  | err (status : Nat) (error : String)
deriving DecidableEq

/-! ## The handlers

Each handler takes the collection state (`store`), the process secret and the
call-time clock explicitly; the store is returned where the handler writes it.
-/

/-- The stored password digest: the source runs `h := sha256.New()` and stores
`string(h.Sum([]byte(password)))` (`SignInHandler` lines 55–60, `SignUpHandler`
lines 184–185).  Go's `hash.Hash.Sum(b)` appends the checksum of the data
written so far — nothing was written — to `b`, so the stored value is the raw
password bytes followed by the SHA-256 digest of the empty message. -/
def goDigest (password : List Nat) : List Nat := password ++ sha256 []

/-- The digest the spec describes (§4.2 "Password hashing policy: a single
pass of a cryptographic digest function over the raw password bytes, no salt,
no iteration count"), stated for comparison with `goDigest`. -/
def specDigest (password : List Nat) : List Nat := sha256 password

/-- `SignInHandler`: looks up a record matching both the username and the
digest of the submitted password; on no match answers 401 with a single
indistinct message; on a match signs a token expiring 10 minutes from now with
the key `[]byte(os.Getenv("JWT_SECRET"))` (line 76) — a byte slice, so the
500 branch of lines 78–81 is dead — and returns it. -/
def signInHandler (store : List User) (secret : String) (now : Int)
    (username : String) (password : List Nat) : HResp JWTOutput :=
  match store.find? (fun u => u.username == username && u.password == goDigest password) with
  | none => .err 401 "Invalid username or password"
  | some _ =>
      let expirationTime := now + 600
      let claims : Claims := { username := username, expiresAt := expirationTime }
      match signedString (.bytesKey secret) claims with
      | .error e => .err 500 e
      | .ok token => .ok { token := token, expires := expirationTime }

/-- `SignUpHandler`: fails 400 if a record with the username exists (the
`FindOne` error is not `ErrNoDocuments`), otherwise inserts the record with the
digested password and echoes it.  Returns the response and the store after the
call. -/
def signUpHandler (store : List User) (username : String) (password : List Nat) :
    HResp User × List User :=
  match store.find? (fun u => u.username == username) with
  | some _ => (.err 400 "Username already exists", store)
  | none =>
      let u : User := { username := username, password := goDigest password }
      (.ok u, store ++ [u])

/-- `RefreshHandler`: parses the Authorization token; 401 on parse failure;
400 if more than 30 seconds remain before the claimed expiry; otherwise tries
to mint a token with the same claims and a fresh 5-minute expiry — but signs
it with `os.Getenv("JWT_SECRET")` (line 143), a plain string rather than
sign-in's byte slice, so `SignedString` fails and the error branch of lines
144–147 answers 500 with `err.Error()`. -/
def refreshHandler (secret : String) (now : Int) (tokenValue : Token) :
    HResp JWTOutput :=
  match parseToken secret tokenValue with
  | .error e => .err 401 (parseErrorMessage e)
  | .ok claims =>
      if claims.expiresAt - now > 30 then
        .err 400 "Token is not expired yet"
      else
        let expirationTime := now + 300
        let claims := { claims with expiresAt := expirationTime }
        match signedString (.stringKey secret) claims with
        | .error e => .err 500 e
        | .ok token => .ok { token := token, expires := expirationTime }

/-- `GetUserHandler`: 404 exactly when `FindOne` by username yields
`ErrNoDocuments`; otherwise decodes and returns the stored record whole. -/
def getUserHandler (store : List User) (username : String) : HResp User :=
  match store.find? (fun u => u.username == username) with
  | none => .err 404 "User not found!"
  | some u => .ok u

/-! ## The Authorization Gate (`AuthMiddleware`) and the gin handler chain

The gin framework is a dependency, not under `src/`.  Its documented `Context`
semantics are embedded just far enough to run the protected chain
`[AuthMiddleware, downstream route handler]`: the engine drives the chain by an
index; `Abort` sets the index to a constant past any chain (gin's
`abortIndex = 63`) so that no pending handler runs; the first status written to
the response wins (a later write is dropped with a warning).
-/

/-- The request-serving state: the running handler index, the response status
written so far, and whether the downstream route handler has executed. -/
structure GinCtx where
  index : Nat
  status : Option Nat
  downstreamRan : Bool
deriving DecidableEq

def abortIndex : Nat := 63

/-- Write a response status; gin keeps the first status written. -/
def writeStatus (c : GinCtx) (s : Nat) : GinCtx :=
  match c.status with
  | some _ => c
  | none => { c with status := some s }

/-- `c.AbortWithStatus(s)`: writes the status and jumps the index past the
chain so pending handlers never execute. -/
def abortWithStatus (c : GinCtx) (s : Nat) : GinCtx :=
  { writeStatus c s with index := abortIndex }

/-- The downstream route handler of the protected group: records that it ran
and answers 200.  Its body is irrelevant to the claims; only whether it runs
matters. -/
def downstreamHandler (c : GinCtx) : GinCtx :=
  { writeStatus c 200 with downstreamRan := true }

/-- `c.Next()` as called from the middleware at position 0 of the two-handler
chain: increments the index and runs the remaining handlers while the index is
inside the chain — here precisely the downstream handler at position 1. -/
def ginNext (c : GinCtx) : GinCtx :=
  let c1 : GinCtx := { c with index := c.index + 1 }
  if c1.index = 1 then
    let c2 := downstreamHandler c1
    { c2 with index := c2.index + 1 }
  else c1

/-- `AuthMiddleware`: parses the Authorization header via the Token Codec; on
failure `AbortWithStatus(401)` fires in the `err != nil` branch and again in
the `tkn == nil || !tkn.Valid` branch (the parsed token is not `Valid` when
parsing failed); in every case the body falls through to `c.Next()`, exactly
as in the source, which has no `return` in the middleware. -/
def authMiddleware (secret : String) (authHeader : Token) (c : GinCtx) : GinCtx :=
  match parseToken secret authHeader with
  | .error _ =>
      let c1 := abortWithStatus c 401
      let c2 := abortWithStatus c1 401
      ginNext c2
  | .ok _ => ginNext c

/-- Serve one request to a protected route: the engine starts the chain at the
middleware (index 0); after the middleware returns, the index is past the
chain in every path, so serving is running the middleware on the fresh
context. -/
def serveProtected (secret : String) (authHeader : Token) : GinCtx :=
  authMiddleware secret authHeader { index := 0, status := none, downstreamRan := false }

/-! ## Claims -/

/-- C2: for every token that is structurally valid and correctly signed with
the process secret, `Parse` succeeds even when the token's `expiresAt` lies in
the past; the parse operation itself checks no expiry (it takes no clock). -/
theorem parse_succeeds_on_expired_token (secret : String) (c : Claims) (now : Int)
    (hpast : c.expiresAt < now) :
    parseToken secret (Token.signed c secret) = Except.ok c := by
  simp [parseToken]

/-- Witness for `parse_succeeds_on_expired_token` at a concrete expired token. -/
theorem parse_succeeds_on_expired_token_witness :
    parseToken "s" (Token.signed { username := "alice", expiresAt := 0 } "s") =
      Except.ok { username := "alice", expiresAt := 0 } :=
  parse_succeeds_on_expired_token "s" { username := "alice", expiresAt := 0 } 5 (by decide)

/-- C1: contrary to the claim, `Refresh` never returns the 200 token.  A
structurally valid, correctly signed token whose remaining time-to-expiry is
at most 30 seconds passes the parse and window checks, but the mint step signs
with `os.Getenv("JWT_SECRET")` — a plain string, unlike sign-in's
`[]byte(...)` — which the jwt HMAC signer rejects with `ErrInvalidKeyType`,
so every in-window refresh answers 500 "key is of invalid type" and no token
is issued. -/
theorem refresh_within_window_answers_500 (secret : String) (c : Claims) (now : Int)
    (h : c.expiresAt - now ≤ 30) :
    refreshHandler secret now (Token.signed c secret) =
        HResp.err 500 "key is of invalid type" ∧
      ∀ out, refreshHandler secret now (Token.signed c secret) ≠ HResp.ok out := by
  have hgt : ¬ c.expiresAt - now > 30 := by omega
  have heq : refreshHandler secret now (Token.signed c secret) =
      HResp.err 500 "key is of invalid type" := by
    simp [refreshHandler, parseToken, signedString, hgt]
  exact ⟨heq, fun out hout => by rw [heq] at hout; exact HResp.noConfusion hout⟩

/-- Witness for `refresh_within_window_answers_500`: a token 10 seconds from
expiry is refused with the 500 invalid-key response instead of being
refreshed. -/
theorem refresh_within_window_answers_500_witness :
    refreshHandler "s" 100 (Token.signed { username := "alice", expiresAt := 110 } "s") =
        HResp.err 500 "key is of invalid type" ∧
      ∀ out, refreshHandler "s" 100 (Token.signed { username := "alice", expiresAt := 110 } "s") ≠
        HResp.ok out :=
  refresh_within_window_answers_500 "s" { username := "alice", expiresAt := 110 } 100 (by decide)

/-- C7: a parsed, correctly signed token with more than 30 seconds left before
expiry makes `Refresh` fail with the 400 "Token is not expired yet" response,
and no token is issued. -/
theorem refresh_too_early_rejected (secret : String) (c : Claims) (now : Int)
    (h : c.expiresAt - now > 30) :
    refreshHandler secret now (Token.signed c secret) =
        HResp.err 400 "Token is not expired yet" ∧
      ∀ out, refreshHandler secret now (Token.signed c secret) ≠ HResp.ok out := by
  have heq : refreshHandler secret now (Token.signed c secret) =
      HResp.err 400 "Token is not expired yet" := by
    simp [refreshHandler, parseToken, h]
  exact ⟨heq, fun out hout => by rw [heq] at hout; exact HResp.noConfusion hout⟩

/-- Witness for `refresh_too_early_rejected`: a token with 970 seconds left is
not refreshed. -/
theorem refresh_too_early_rejected_witness :
    refreshHandler "s" 30 (Token.signed { username := "alice", expiresAt := 1000 } "s") =
        HResp.err 400 "Token is not expired yet" ∧
      ∀ out, refreshHandler "s" 30 (Token.signed { username := "alice", expiresAt := 1000 } "s") ≠
        HResp.ok out :=
  refresh_too_early_rejected "s" { username := "alice", expiresAt := 1000 } 30 (by decide)

/-- C5: when the Authorization token of a request to the protected group fails
to parse (malformed or bad signature), the gate answers 401 and the downstream
route handler never executes: `AbortWithStatus` moves the handler index past
the chain, so the trailing `c.Next()` runs nothing. -/
theorem authgate_blocks_unparsable_token (secret : String) (t : Token)
    (h : ∃ e, parseToken secret t = Except.error e) :
    (serveProtected secret t).downstreamRan = false ∧
      (serveProtected secret t).status = some 401 := by
  obtain ⟨e, he⟩ := h
  unfold serveProtected authMiddleware
  rw [he]
  exact ⟨rfl, rfl⟩

/-- Witness for `authgate_blocks_unparsable_token` at a malformed token. -/
theorem authgate_blocks_unparsable_token_witness :
    (serveProtected "s" (Token.malformed "garbage")).downstreamRan = false ∧
      (serveProtected "s" (Token.malformed "garbage")).status = some 401 :=
  authgate_blocks_unparsable_token "s" (Token.malformed "garbage")
    ⟨ParseError.malformedToken, rfl⟩

/-- C3: the value the handlers store and match is NOT a single SHA-256 pass
over the raw password bytes.  `h.Sum([]byte(password))` on a fresh hasher with
nothing written appends the digest of the empty message to the password, so
for the one-byte password `"a"` the stored value is the raw byte `0x61`
followed by SHA-256 of `""` — 33 bytes, the password in clear as its prefix —
whereas SHA-256 of `"a"` is a different, 32-byte value. -/
theorem stored_digest_is_not_single_sha256 :
    goDigest [0x61] = 0x61 :: sha256 [] ∧
      (goDigest [0x61]).length = 33 ∧
      (specDigest [0x61]).length = 32 ∧
      goDigest [0x61] ≠ specDigest [0x61] :=
  ⟨rfl, by decide, by decide, by decide⟩

/-- C9: whenever `SignInHandler` answers 200, the returned `expires` timestamp
is exactly 10 minutes after the call time, and the expiry embedded in the
token's claims equals that returned timestamp (and the embedded username is
the submitted one). -/
theorem signin_token_expires_in_10_minutes (store : List User) (secret : String)
    (now : Int) (username : String) (password : List Nat) (out : JWTOutput)
    (h : signInHandler store secret now username password = HResp.ok out) :
    out.expires = now + 600 ∧
      out.token = Token.signed { username := username, expiresAt := now + 600 } secret := by
  unfold signInHandler at h
  cases hf : store.find? (fun u => u.username == username && u.password == goDigest password) with
  | none => rw [hf] at h; exact HResp.noConfusion h
  | some u =>
      rw [hf] at h
      cases h
      exact ⟨rfl, rfl⟩

/-- Witness for `signin_token_expires_in_10_minutes` on a one-record store. -/
theorem signin_token_expires_in_10_minutes_witness :
    ({ token := Token.signed { username := "alice", expiresAt := 600 } "s",
       expires := 600 } : JWTOutput).expires = 0 + 600 ∧
      ({ token := Token.signed { username := "alice", expiresAt := 600 } "s",
         expires := 600 } : JWTOutput).token =
        Token.signed { username := "alice", expiresAt := 0 + 600 } "s" :=
  signin_token_expires_in_10_minutes [{ username := "alice", password := goDigest [97] }]
    "s" 0 "alice" [97]
    { token := Token.signed { username := "alice", expiresAt := 600 } "s", expires := 600 }
    (by decide)

/-- C6: on one and the same store, a sign-in with a registered username but a
wrong password and a sign-in with an unregistered username produce the
identical 401 response with the identical error body, so the outcome does not
reveal whether the username exists. -/
theorem signin_failure_hides_username_existence (store : List User)
    (name1 : String) (pw1 : List Nat) (secret1 : String) (now1 : Int)
    (name2 : String) (pw2 : List Nat) (secret2 : String) (now2 : Int)
    (hreg : ∃ u ∈ store, u.username = name1)
    (hwrong : ∀ u ∈ store, u.username = name1 → u.password ≠ goDigest pw1)
    (hunknown : ∀ u ∈ store, u.username ≠ name2) :
    signInHandler store secret1 now1 name1 pw1 = HResp.err 401 "Invalid username or password" ∧
      signInHandler store secret2 now2 name2 pw2 = HResp.err 401 "Invalid username or password" ∧
      signInHandler store secret1 now1 name1 pw1 = signInHandler store secret2 now2 name2 pw2 := by
  have h1 : store.find? (fun u => u.username == name1 && u.password == goDigest pw1) = none := by
    rw [List.find?_eq_none]
    intro u hu hp
    simp only [Bool.and_eq_true, beq_iff_eq] at hp
    exact hwrong u hu hp.1 hp.2
  have h2 : store.find? (fun u => u.username == name2 && u.password == goDigest pw2) = none := by
    rw [List.find?_eq_none]
    intro u hu hp
    simp only [Bool.and_eq_true, beq_iff_eq] at hp
    exact hunknown u hu hp.1
  refine ⟨?_, ?_, ?_⟩ <;> simp [signInHandler, h1, h2]

/-- Witness for `signin_failure_hides_username_existence`: wrong password for
registered "alice" versus unknown "bob". -/
theorem signin_failure_hides_username_existence_witness :
    signInHandler [{ username := "alice", password := goDigest [97] }] "s" 0 "alice" [98] =
        HResp.err 401 "Invalid username or password" ∧
      signInHandler [{ username := "alice", password := goDigest [97] }] "s" 7 "bob" [97] =
        HResp.err 401 "Invalid username or password" ∧
      signInHandler [{ username := "alice", password := goDigest [97] }] "s" 0 "alice" [98] =
        signInHandler [{ username := "alice", password := goDigest [97] }] "s" 7 "bob" [97] :=
  signin_failure_hides_username_existence
    [{ username := "alice", password := goDigest [97] }]
    "alice" [98] "s" 0 "bob" [97] "s" 7
    ⟨{ username := "alice", password := goDigest [97] }, by simp, rfl⟩
    (by decide) (by decide)

/-- C8: `SignUpHandler` on a store already holding the username answers 400
"Username already exists" and returns the store unchanged: no record is
altered and none is inserted. -/
theorem signup_existing_username_rejected (store : List User) (username : String)
    (password : List Nat) (hreg : ∃ u ∈ store, u.username = username) :
    signUpHandler store username password =
      (HResp.err 400 "Username already exists", store) := by
  obtain ⟨u, hu, hname⟩ := hreg
  unfold signUpHandler
  cases hf : store.find? (fun v => v.username == username) with
  | none => exact absurd (List.find?_eq_none.mp hf u hu) (by simp [hname])
  | some v => rfl

/-- Witness for `signup_existing_username_rejected` on a one-record store. -/
theorem signup_existing_username_rejected_witness :
    signUpHandler [{ username := "alice", password := goDigest [97] }] "alice" [99] =
      (HResp.err 400 "Username already exists",
       [{ username := "alice", password := goDigest [97] }]) :=
  signup_existing_username_rejected [{ username := "alice", password := goDigest [97] }]
    "alice" [99]
    ⟨{ username := "alice", password := goDigest [97] }, by simp, rfl⟩

/-- Auxiliary: `find?` skips a prefix on which the predicate is false
everywhere. -/
theorem find?_append_of_forall_neg {α : Type} (p : α → Bool) (l1 l2 : List α)
    (h : ∀ x ∈ l1, ¬ p x) : (l1 ++ l2).find? p = l2.find? p := by
  induction l1 with
  | nil => rfl
  | cons a l ih =>
      have ha : ¬ p a := h a (List.mem_cons_self a l)
      rw [List.cons_append, List.find?_cons_of_neg _ ha]
      exact ih (fun x hx => h x (List.mem_cons_of_mem a hx))

/-- C4: a `(username, password)` pair registered by a successful `SignUp`
signs in successfully against the resulting store, and the issued token's
embedded username is the submitted username (with the 10-minute expiry of
sign-in). -/
theorem signup_then_signin_roundtrip (store : List User) (username : String)
    (password : List Nat) (secret : String) (now : Int) (u : User) (store2 : List User)
    (h : signUpHandler store username password = (HResp.ok u, store2)) :
    signInHandler store2 secret now username password =
      HResp.ok { token := Token.signed { username := username, expiresAt := now + 600 } secret,
                 expires := now + 600 } := by
  unfold signUpHandler at h
  cases hf : store.find? (fun v => v.username == username) with
  | some v =>
      rw [hf] at h
      exact HResp.noConfusion (congrArg Prod.fst h)
  | none =>
      rw [hf] at h
      replace h :
          ((HResp.ok { username := username, password := goDigest password } : HResp User),
            store ++ [{ username := username, password := goDigest password }]) =
          (HResp.ok u, store2) := h
      have hstore2 : store ++ [{ username := username, password := goDigest password }] = store2 :=
        congrArg Prod.snd h
      subst hstore2
      have hneg : ∀ x ∈ store,
          ¬ ((fun v => v.username == username && v.password == goDigest password) x = true) := by
        intro x hx hpx
        simp only [Bool.and_eq_true, beq_iff_eq] at hpx
        exact List.find?_eq_none.mp hf x hx (beq_iff_eq.mpr hpx.1)
      have hfind : List.find? (fun v : User => v.username == username && v.password == goDigest password)
          (store ++ [({ username := username, password := goDigest password } : User)]) =
          some { username := username, password := goDigest password } := by
        rw [find?_append_of_forall_neg _ _ _ hneg]
        simp [List.find?]
      unfold signInHandler
      rw [hfind]
      rfl

/-- Witness for `signup_then_signin_roundtrip`: register "alice" on the empty
store, then sign in. -/
theorem signup_then_signin_roundtrip_witness :
    signInHandler [{ username := "alice", password := goDigest [97] }] "s" 0 "alice" [97] =
      HResp.ok { token := Token.signed { username := "alice", expiresAt := 0 + 600 } "s",
                 expires := 0 + 600 } :=
  signup_then_signin_roundtrip [] "alice" [97] "s" 0
    { username := "alice", password := goDigest [97] }
    [{ username := "alice", password := goDigest [97] }] rfl

/-- C10: `GetUserHandler` either returns a record of the store — whole, its
stored password-digest field included — whose username is the requested one,
or answers 404 "User not found!", and the latter exactly when no record with
that username exists. -/
theorem getuser_returns_stored_record (store : List User) (username : String) :
    match getUserHandler store username with
    | .ok u => u ∈ store ∧ u.username = username
    | .err s e => s = 404 ∧ e = "User not found!" ∧ ∀ u ∈ store, u.username ≠ username := by
  unfold getUserHandler
  cases hf : store.find? (fun u => u.username == username) with
  | none =>
      refine ⟨rfl, rfl, fun u hu => ?_⟩
      have := List.find?_eq_none.mp hf u hu
      simpa using this
  | some u =>
      exact ⟨List.mem_of_find?_eq_some hf, by simpa using List.find?_some hf⟩
